import Mathlib

set_option maxHeartbeats 1000000

/-!
Verification of the HOMINIDS foraging simulation (Python port of the
Griffith et al. ABM).  The definitions below are a shallow embedding of
the decision, plant, and carcass logic of `hominids_model.py`,
`plant_system.py`, and `carcass_system.py`.  Real-valued quantities are
modelled as rationals; stochastic scan results (which foods/carcasses an
agent perceived this minute, the nest site its search returned, the
target of the wandering fallback) are supplied as explicit inputs to the
per-minute step, exactly where the source consumes random draws.
-/

namespace Hominids

/-- Hominid species kinds (`HominidSpecies` in hominids_model.py). -/
inductive HominidKind where
  | boisei
  | ergaster
deriving DecidableEq

/-- Carcass size categories (`CarcassSize` in carcass_system.py). -/
inductive CarcassSize where
  | small
  | medium
  | large
deriving DecidableEq

/-- Numeric parameters hard-coded in `Parameters._load_general_parameters`
(hominids_model.py).  Only fields the foraging core reads are embedded. -/
structure Parameters where
  wandering_distance : ℚ
  earshot_distance : ℚ
  nest_scan_distance : ℚ
  active_time_units_per_day : ℤ
  extra_nesting_steps : ℤ
  initial_food_percentage : ℚ
  final_food_percentage : ℚ
  boisei_daily_calorie_requirement : ℚ
  boisei_belly_capacity_grams : ℚ
  boisei_diet_track_length : ℕ
  boisei_diet_threshold : ℚ
  ergaster_daily_calorie_requirement : ℚ
  ergaster_belly_capacity_grams : ℚ
  ergaster_diet_track_length : ℕ
  ergaster_diet_threshold : ℚ
  number_of_agents_for_carcass : ℕ
  carcass_detection_range : ℚ
  carcass_grams_eaten_per_unit_time : ℚ
  carcass_calories_per_gram : ℚ
  small_carcass_weight_grams : ℚ
  medium_carcass_weight_grams : ℚ
  large_carcass_weight_grams : ℚ

/-- The parameter values assigned in `_load_general_parameters`. -/
def defaultParameters : Parameters where
  wandering_distance := 2
  earshot_distance := 10
  nest_scan_distance := 10
  active_time_units_per_day := 720
  extra_nesting_steps := 180
  initial_food_percentage := 1/100
  final_food_percentage := 99/100
  boisei_daily_calorie_requirement := 2500
  boisei_belly_capacity_grams := 4500
  boisei_diet_track_length := 14
  boisei_diet_threshold := 1/2
  ergaster_daily_calorie_requirement := 3500
  ergaster_belly_capacity_grams := 5000
  ergaster_diet_track_length := 14
  ergaster_diet_threshold := 1/2
  number_of_agents_for_carcass := 3
  carcass_detection_range := 5
  carcass_grams_eaten_per_unit_time := 50
  carcass_calories_per_gram := 1570
  small_carcass_weight_grams := 1000
  medium_carcass_weight_grams := 10000
  large_carcass_weight_grams := 100000

/-- Plant species record (`PlantSpecies` in plant_system.py).  The
`return_rate` field holds the value computed at load time,
`(grams_per_feeding_unit * calories_per_gram) / handling_time_minutes`. -/
structure PlantSpecies where
  species_id : ℕ
  disabled : Bool
  tools_required : Bool
  has_digging_phase : Bool
  edible_by_boisei : Bool
  edible_by_ergaster : Bool
  is_nesting_tree : Bool
  seasons_fruiting : List Bool
  grams_per_feeding_unit : ℚ
  calories_per_gram : ℚ
  visibility_probability : ℚ
  handling_time_minutes : ℚ
  return_rate : ℚ

/-- Food state of one grid cell (`CellFood` in plant_system.py): current
and maximum abundance per plant species id. -/
structure CellFood where
  food_amounts : ℕ → ℚ
  max_food_amounts : ℕ → ℚ

/-- `CellFood.consume_food`: remove consumed food, floored at zero. -/
def CellFood.consume_food (cf : CellFood) (species_id : ℕ) (amount : ℚ) : CellFood :=
  { cf with food_amounts := fun j =>
      if j = species_id then max 0 (cf.food_amounts species_id - amount)
      else cf.food_amounts j }

/-- Daily update of one species' abundance in one cell, the loop body of
`CellFood.update_food` (plant_system.py lines 160-198).  During a
fruiting season with positive capacity the abundance follows discrete
logistic growth toward `capacity * final_food_percentage` with rate
1/10, reseeding to `capacity * 1/100` from zero; otherwise it decays by
factor `1 - 5/100` toward the floor `capacity * initial_food_percentage`. -/
def update_food_amount (p : Parameters) (is_fruiting_season : Bool)
    (max_amount current : ℚ) : ℚ :=
  if is_fruiting_season = true ∧ 0 < max_amount then
    let target := max_amount * p.final_food_percentage
    if 0 < current then
      let growth := (1/10) * current * (1 - current / target)
      min (current + growth) target
    else
      max_amount * (1/100)
  else
    let target := max_amount * p.initial_food_percentage
    max (current * (1 - 5/100)) target

/-- `CellFood.update_food`: apply the daily update to every species of a
cell, with the fruiting flag read from the species catalogue. -/
def CellFood.update_food (cf : CellFood) (p : Parameters)
    (species_list : List PlantSpecies) (season : ℕ) : CellFood :=
  { cf with food_amounts := fun sid =>
      let fruiting :=
        match species_list.find? (fun s => s.species_id == sid) with
        | some s => s.seasons_fruiting.getD (season - 1) true
        | none => true
      update_food_amount p fruiting (cf.max_food_amounts sid) (cf.food_amounts sid) }

/-- C5: for every cell and species, the daily update keeps the abundance
within `[capacity * initial_food_percentage, capacity * final_food_percentage]`
(with the loaded fractions 1/100 and 99/100), and a fruiting species with
positive capacity whose abundance is exactly zero is reseeded to
`capacity * 1/100`. -/
theorem update_food_amount_bounds_and_reseed
    (fruiting : Bool) (max_amount current : ℚ)
    (hcap : 0 ≤ max_amount)
    (hlo : max_amount * (1/100) ≤ current)
    (hhi : current ≤ max_amount * (99/100)) :
    (max_amount * (1/100) ≤ update_food_amount defaultParameters fruiting max_amount current ∧
      update_food_amount defaultParameters fruiting max_amount current ≤ max_amount * (99/100)) ∧
    (fruiting = true → 0 < max_amount →
      update_food_amount defaultParameters fruiting max_amount 0 = max_amount * (1/100)) := by
  constructor
  · unfold update_food_amount
    by_cases hfr : fruiting = true ∧ 0 < max_amount
    · rw [if_pos hfr]
      have hcappos : 0 < max_amount := hfr.2
      have htgt : (0:ℚ) < max_amount * (99/100) := by positivity
      have hcur : 0 < current := lt_of_lt_of_le (by positivity) hlo
      rw [if_pos hcur]
      have hfin : defaultParameters.final_food_percentage = 99/100 := rfl
      rw [hfin]
      constructor
      · apply le_min
        · have hdiv : current / (max_amount * (99/100)) ≤ 1 :=
            (div_le_one htgt).mpr hhi
          nlinarith [mul_nonneg hcur.le (sub_nonneg.mpr hdiv)]
        · nlinarith
      · exact min_le_right _ _
    · rw [if_neg hfr]
      have hini : defaultParameters.initial_food_percentage = 1/100 := rfl
      rw [hini]
      constructor
      · exact le_max_right _ _
      · apply max_le
        · nlinarith
        · nlinarith
  · intro hfr hcappos
    unfold update_food_amount
    rw [if_pos ⟨hfr, hcappos⟩, if_neg (by norm_num)]

/-- Witness for the C5 theorem at capacity 200, current abundance 100. -/
theorem update_food_amount_bounds_and_reseed_witness :
    ((200:ℚ) * (1/100) ≤ update_food_amount defaultParameters true 200 100 ∧
      update_food_amount defaultParameters true 200 100 ≤ 200 * (99/100)) ∧
    (true = true → (0:ℚ) < 200 →
      update_food_amount defaultParameters true 200 0 = 200 * (1/100)) :=
  update_food_amount_bounds_and_reseed true 200 100 (by norm_num) (by norm_num) (by norm_num)

/-- Carcass record (`Carcass` in carcass_system.py).  `agents_present` is
the co-located forager id list maintained by the manager. -/
structure Carcass where
  unique_id : ℕ
  size : CarcassSize
  weight_grams : ℚ
  remaining_grams : ℚ
  location : ℤ × ℤ
  agents_present : List ℕ
deriving DecidableEq

/-- `Carcass.is_depleted`. -/
def Carcass.is_depleted (c : Carcass) : Bool :=
  c.remaining_grams ≤ 0

/-- `Carcass.get_meat_available`. -/
def Carcass.get_meat_available (c : Carcass) : ℚ :=
  c.remaining_grams

/-- `Carcass.consume_meat`: returns the carcass after consumption together
with the amount actually removed (at most the remaining mass). -/
def Carcass.consume_meat (c : Carcass) (grams : ℚ) : Carcass × ℚ :=
  let actual_consumed := min grams c.remaining_grams
  ({ c with remaining_grams := c.remaining_grams - actual_consumed }, actual_consumed)

/-- `Carcass.can_scavenge_individually`. -/
def Carcass.can_scavenge_individually (c : Carcass) : Bool :=
  c.size = CarcassSize.small

/-- `Carcass.needs_cooperation`. -/
def Carcass.needs_cooperation (_c : Carcass) (n_agents_present threshold : ℕ) : Bool :=
  threshold ≤ n_agents_present

/-- Raw Manhattan distance used by `CarcassManager.get_carcasses_in_range`
(no toroidal correction). -/
def manhattan_distance (p q : ℤ × ℤ) : ℤ :=
  |p.1 - q.1| + |p.2 - q.2|

/-- `CarcassManager.get_carcasses_in_range`: non-depleted carcasses whose
raw Manhattan distance to the query position is at most the range. -/
def get_carcasses_in_range (carcasses : List Carcass) (agent_pos : ℤ × ℤ)
    (detection_range : ℚ) : List Carcass :=
  carcasses.filter (fun c =>
    ¬ c.is_depleted ∧ (manhattan_distance agent_pos c.location : ℚ) ≤ detection_range)

/-- `CarcassManager.update_carcass_agents` restricted to one carcass:
rebuild its co-located id list from the current agent positions. -/
def update_carcass_agents (agents : List (ℕ × (ℤ × ℤ))) (c : Carcass) : Carcass :=
  { c with agents_present := (agents.filter (fun ap => ap.2 = c.location)).map Prod.fst }

/-- `CarcassManager.remove_depleted_carcasses`. -/
def remove_depleted_carcasses (carcasses : List Carcass) : List Carcass :=
  carcasses.filter (fun c => ¬ c.is_depleted)

/-- `calculate_meat_consumption` (carcass_system.py): the per-minute gram
rate, divided evenly among present agents for medium/large carcasses, and
capped by the carcass's remaining meat. -/
def calculate_meat_consumption (c : Carcass) (p : Parameters) : ℚ :=
  let base_consumption := p.carcass_grams_eaten_per_unit_time
  let consumption :=
    if c.size = CarcassSize.small then base_consumption
    else
      let n_agents := c.agents_present.length
      if 0 < n_agents then base_consumption / n_agents else 0
  min consumption c.get_meat_available

/-- C8: the carcass range query returns exactly the carcasses with positive
remaining mass within raw Manhattan distance of the query position, and a
carcass whose remaining mass has reached zero stays at zero under any
further nonnegative consumption, hence appears in no subsequent result. -/
theorem get_carcasses_in_range_spec (carcasses : List Carcass)
    (agent_pos : ℤ × ℤ) (detection_range : ℚ) (c : Carcass) :
    (c ∈ get_carcasses_in_range carcasses agent_pos detection_range ↔
      c ∈ carcasses ∧ 0 < c.remaining_grams ∧
        (manhattan_distance agent_pos c.location : ℚ) ≤ detection_range) ∧
    (c.remaining_grams = 0 → ∀ grams : ℚ, 0 ≤ grams →
      ((c.consume_meat grams).1.remaining_grams = 0 ∧
        c ∉ get_carcasses_in_range carcasses agent_pos detection_range)) := by
  constructor
  · simp [get_carcasses_in_range, Carcass.is_depleted, List.mem_filter, not_le, and_assoc]
  · intro hzero grams hg
    refine ⟨?_, ?_⟩
    · simp only [Carcass.consume_meat, hzero]
      have : min grams (0:ℚ) = 0 := min_eq_right hg
      simp [this]
    · simp [get_carcasses_in_range, Carcass.is_depleted, List.mem_filter, hzero]

/-- A fully depleted small carcass at the origin. -/
def depletedCarcassExample : Carcass :=
  ⟨0, CarcassSize.small, 1000, 0, (0, 0), []⟩

/-- Witness for the C8 theorem: a depleted carcass at the origin stays
depleted after an attempt to consume 7 more grams and is not returned by
a range query from its own cell. -/
theorem get_carcasses_in_range_spec_witness :
    (depletedCarcassExample.consume_meat 7).1.remaining_grams = 0 ∧
      depletedCarcassExample ∉
        get_carcasses_in_range [depletedCarcassExample] (0, 0) 5 :=
  (get_carcasses_in_range_spec [depletedCarcassExample] (0, 0) 5
    depletedCarcassExample).2 rfl 7 (by norm_num)

/-- Per-agent state (`HominidAgent` in hominids_model.py).  The seasonal
and daily calorie ledgers are maps from (zero-based) season or day index
to accumulated calories. -/
structure AgentState where
  unique_id : ℕ
  species : HominidKind
  group_nesting : Bool
  can_dig : Bool
  can_eat_meat : Bool
  cooperates : Bool
  daily_calorie_requirement : ℚ
  belly_capacity_grams : ℚ
  diet_track_length : ℕ
  diet_threshold : ℚ
  calories_today : ℚ
  calories_history : List ℚ
  gut_contents_grams : ℚ
  active_time_remaining : ℤ
  is_nesting : Bool
  nest_location : Option (ℤ × ℤ)
  pos : ℤ × ℤ
  plant_calories_by_season : ℕ → ℚ
  carcass_calories_by_season : ℕ → ℚ
  root_calories_by_season : ℕ → ℚ
  nonroot_calories_by_season : ℕ → ℚ
  daily_plant_calories : ℕ → ℚ
  daily_carcass_calories : ℕ → ℚ
  ignored_carcasses : List ℕ
  wait_timer : ℤ
  waiting_at_carcass : Option ℕ

/-- Add `d` to the ledger entry at index `i`. -/
def ledger_add (f : ℕ → ℚ) (i : ℕ) (d : ℚ) : ℕ → ℚ :=
  fun j => if j = i then f j + d else f j

/-- `HominidAgent.eat_food`: eat one feeding unit of a plant, capped by
remaining gut capacity; a non-positive cap makes the call a no-op.
Returns the updated agent and the updated cell (one whole unit is removed
from the cell's abundance, not the grams actually eaten). -/
def eat_food (a : AgentState) (plant : PlantSpecies) (cf : CellFood)
    (season day : ℕ) : AgentState × CellFood :=
  let grams_to_eat :=
    min plant.grams_per_feeding_unit (a.belly_capacity_grams - a.gut_contents_grams)
  if grams_to_eat ≤ 0 then (a, cf)
  else
    let calories_gained := grams_to_eat * plant.calories_per_gram
    let season_idx := season - 1
    let day_idx := day - 1
    let is_root := plant.tools_required || plant.has_digging_phase
    ({ a with
        calories_today := a.calories_today + calories_gained
        gut_contents_grams := a.gut_contents_grams + grams_to_eat
        plant_calories_by_season := ledger_add a.plant_calories_by_season season_idx calories_gained
        daily_plant_calories := ledger_add a.daily_plant_calories day_idx calories_gained
        root_calories_by_season :=
          if is_root then ledger_add a.root_calories_by_season season_idx calories_gained
          else a.root_calories_by_season
        nonroot_calories_by_season :=
          if is_root then a.nonroot_calories_by_season
          else ledger_add a.nonroot_calories_by_season season_idx calories_gained },
      cf.consume_food plant.species_id 1)

/-- `HominidAgent._consume_meat`: consume from a carcass the amount given
by `calculate_meat_consumption`, further capped by remaining gut
capacity; a non-positive amount makes the call a no-op. -/
def agent_consume_meat (p : Parameters) (a : AgentState) (c : Carcass)
    (season day : ℕ) : AgentState × Carcass :=
  let meat_grams := calculate_meat_consumption c p
  let actual_consumed := min meat_grams (a.belly_capacity_grams - a.gut_contents_grams)
  if actual_consumed ≤ 0 then (a, c)
  else
    let c2 := (c.consume_meat actual_consumed).1
    let calories_gained := actual_consumed * p.carcass_calories_per_gram
    let season_idx := season - 1
    let day_idx := day - 1
    ({ a with
        calories_today := a.calories_today + calories_gained
        gut_contents_grams := a.gut_contents_grams + actual_consumed
        carcass_calories_by_season :=
          ledger_add a.carcass_calories_by_season season_idx calories_gained
        daily_carcass_calories :=
          ledger_add a.daily_carcass_calories day_idx calories_gained },
      c2)

/-- Per-agent gram share of a carcass as the spec words it for C4: a
small carcass yields the whole per-minute gram rate, a medium or large
one that rate split evenly among the co-located agents (zero with nobody
present). -/
def spec_meat_share (p : Parameters) (c : Carcass) (n_co_located : ℕ) : ℚ :=
  if c.size = CarcassSize.small then p.carcass_grams_eaten_per_unit_time
  else if n_co_located = 0 then 0
  else p.carcass_grams_eaten_per_unit_time / n_co_located

/-- Grams the spec says one minute of meat consumption yields: the share,
capped by the carcass's remaining mass and the agent's remaining gut
capacity, never negative. -/
def spec_meat_consumed (p : Parameters) (a : AgentState) (c : Carcass)
    (n_co_located : ℕ) : ℚ :=
  max 0 (min (spec_meat_share p c n_co_located)
    (min c.remaining_grams (a.belly_capacity_grams - a.gut_contents_grams)))

/-- Closed form of `calculate_meat_consumption`. -/
theorem calculate_meat_consumption_eq (c : Carcass) (p : Parameters) :
    calculate_meat_consumption c p =
      min (spec_meat_share p c c.agents_present.length) c.remaining_grams := by
  unfold calculate_meat_consumption spec_meat_share Carcass.get_meat_available
  rcases Nat.eq_zero_or_pos c.agents_present.length with h0 | h0
  · simp [h0]
  · simp [h0, Nat.pos_iff_ne_zero.mp h0]

/-- C4: meat consumption in one minute.  After `update_carcass_agents`
rebuilds the carcass's co-located agent list from the agent positions, a
small carcass offers the whole per-minute gram rate and a medium or
large carcass offers that rate divided evenly among the co-located
agents (zero when nobody is present); the grams actually consumed are
additionally capped by the carcass's remaining mass and by the agent's
remaining gut capacity, and convert to calories at the fixed carcass
calories-per-gram constant. -/
theorem agent_consume_meat_spec (p : Parameters) (a : AgentState)
    (c : Carcass) (agents : List (ℕ × (ℤ × ℤ))) (season day : ℕ) :
    (agent_consume_meat p a (update_carcass_agents agents c) season day).1.gut_contents_grams
        = a.gut_contents_grams +
          spec_meat_consumed p a c ((agents.filter (fun ap => ap.2 = c.location)).length) ∧
      (agent_consume_meat p a (update_carcass_agents agents c) season day).2.remaining_grams
        = c.remaining_grams -
          spec_meat_consumed p a c ((agents.filter (fun ap => ap.2 = c.location)).length) ∧
      (agent_consume_meat p a (update_carcass_agents agents c) season day).1.calories_today
        = a.calories_today +
          spec_meat_consumed p a c ((agents.filter (fun ap => ap.2 = c.location)).length) *
            p.carcass_calories_per_gram := by
  have hlen : (update_carcass_agents agents c).agents_present.length =
      (agents.filter (fun ap => ap.2 = c.location)).length := by
    simp [update_carcass_agents]
  have hshare : spec_meat_share p (update_carcass_agents agents c)
      ((agents.filter (fun ap => ap.2 = c.location)).length) =
      spec_meat_share p c ((agents.filter (fun ap => ap.2 = c.location)).length) := rfl
  have hcalc : calculate_meat_consumption (update_carcass_agents agents c) p =
      min (spec_meat_share p c ((agents.filter (fun ap => ap.2 = c.location)).length))
        c.remaining_grams := by
    rw [calculate_meat_consumption_eq, hlen, hshare]
    rfl
  set n := (agents.filter (fun ap => ap.2 = c.location)).length with hn
  set s := spec_meat_share p c n with hs
  set g := a.belly_capacity_grams - a.gut_contents_grams with hg
  have hassoc : min (min s c.remaining_grams) g = min s (min c.remaining_grams g) :=
    min_assoc _ _ _
  simp only [agent_consume_meat, hcalc, hassoc]
  by_cases hle : min s (min c.remaining_grams g) ≤ 0
  · have hcons : spec_meat_consumed p a c n = 0 := by
      unfold spec_meat_consumed
      rw [← hs, ← hg]
      exact max_eq_left hle
    rw [if_pos hle]
    simp [hcons, update_carcass_agents]
  · push_neg at hle
    have hcons : spec_meat_consumed p a c n = min s (min c.remaining_grams g) := by
      unfold spec_meat_consumed
      rw [← hs, ← hg]
      exact max_eq_right hle.le
    rw [if_neg (not_le.mpr hle)]
    have hAle : min s (min c.remaining_grams g) ≤ c.remaining_grams :=
      le_trans (min_le_right _ _) (min_le_left _ _)
    refine ⟨by simp [hcons], ?_, by simp [hcons]⟩
    simp only [Carcass.consume_meat, update_carcass_agents]
    rw [min_eq_left hAle, hcons]

/-- Per-agent end-of-day reset performed by `HOMINIDSModel._end_of_day`:
today's calories are appended to the history and the daily state
(calories, gut, active time, nesting, carcass-wait bookkeeping) is
reset. -/
def end_of_day_agent (p : Parameters) (a : AgentState) : AgentState :=
  { a with
      calories_history := a.calories_history ++ [a.calories_today]
      calories_today := 0
      gut_contents_grams := 0
      active_time_remaining := p.active_time_units_per_day
      is_nesting := false
      nest_location := none
      ignored_carcasses := []
      wait_timer := 0
      waiting_at_carcass := none }

/-- C7: an agent whose gut contents do not exceed its belly capacity
still satisfies that bound after eating a plant feeding unit or after
consuming carcass meat, and the end-of-day reset returns the gut to
zero. -/
theorem gut_capacity_invariant (p : Parameters) (a : AgentState)
    (plant : PlantSpecies) (cf : CellFood) (c : Carcass) (season day : ℕ)
    (h : a.gut_contents_grams ≤ a.belly_capacity_grams) :
    (eat_food a plant cf season day).1.gut_contents_grams ≤ a.belly_capacity_grams ∧
      (agent_consume_meat p a c season day).1.gut_contents_grams ≤ a.belly_capacity_grams ∧
      (end_of_day_agent p a).gut_contents_grams = 0 := by
  refine ⟨?_, ?_, rfl⟩
  · unfold eat_food
    by_cases hle : min plant.grams_per_feeding_unit
        (a.belly_capacity_grams - a.gut_contents_grams) ≤ 0
    · rw [if_pos hle]; exact h
    · rw [if_neg hle]
      have hcap : min plant.grams_per_feeding_unit
          (a.belly_capacity_grams - a.gut_contents_grams) ≤
          a.belly_capacity_grams - a.gut_contents_grams := min_le_right _ _
      simp only
      linarith
  · unfold agent_consume_meat
    by_cases hle : min (calculate_meat_consumption c p)
        (a.belly_capacity_grams - a.gut_contents_grams) ≤ 0
    · rw [if_pos hle]; exact h
    · rw [if_neg hle]
      have hcap : min (calculate_meat_consumption c p)
          (a.belly_capacity_grams - a.gut_contents_grams) ≤
          a.belly_capacity_grams - a.gut_contents_grams := min_le_right _ _
      simp only
      linarith

/-- C10: with a full (or over-full) gut, both the plant-eating operation
and the meat-consumption operation are exact no-ops: the agent, the cell
and the carcass are returned unchanged. -/
theorem full_gut_noop (p : Parameters) (a : AgentState)
    (plant : PlantSpecies) (cf : CellFood) (c : Carcass) (season day : ℕ)
    (h : a.belly_capacity_grams ≤ a.gut_contents_grams) :
    eat_food a plant cf season day = (a, cf) ∧
      agent_consume_meat p a c season day = (a, c) := by
  have hcap : a.belly_capacity_grams - a.gut_contents_grams ≤ 0 := by linarith
  constructor
  · unfold eat_food
    rw [if_pos (le_trans (min_le_right _ _) hcap)]
  · unfold agent_consume_meat
    rw [if_pos (le_trans (min_le_right _ _) hcap)]

/-- `HominidAgent.check_starvation`: true iff the history holds at least
`diet_track_length` entries and at least that many of the most recent
`diet_track_length` entries lie strictly below
`daily_calorie_requirement * diet_threshold`. -/
def check_starvation (a : AgentState) : Bool :=
  if a.calories_history.length < a.diet_track_length then false
  else
    let recent_days := a.calories_history.drop (a.calories_history.length - a.diet_track_length)
    let threshold_calories := a.daily_calorie_requirement * a.diet_threshold
    let starving_days :=
      (recent_days.filter (fun day_cal => day_cal < threshold_calories)).length
    a.diet_track_length ≤ starving_days

/-- A boisei agent with empty dynamic state, used for concrete scenarios.
Species constants are the boisei values of `defaultParameters`. -/
def baseAgent : AgentState where
  unique_id := 0
  species := HominidKind.boisei
  group_nesting := false
  can_dig := false
  can_eat_meat := true
  cooperates := true
  daily_calorie_requirement := 2500
  belly_capacity_grams := 4500
  diet_track_length := 14
  diet_threshold := 1/2
  calories_today := 0
  calories_history := []
  gut_contents_grams := 0
  active_time_remaining := 720
  is_nesting := false
  nest_location := none
  pos := (0, 0)
  plant_calories_by_season := fun _ => 0
  carcass_calories_by_season := fun _ => 0
  root_calories_by_season := fun _ => 0
  nonroot_calories_by_season := fun _ => 0
  daily_plant_calories := fun _ => 0
  daily_carcass_calories := fun _ => 0
  ignored_carcasses := []
  wait_timer := 0
  waiting_at_carcass := none

/-- A year-round plant species with 100-gram feeding units worth 2
calories per gram, used for concrete scenarios. -/
def examplePlant : PlantSpecies where
  species_id := 1
  disabled := false
  tools_required := false
  has_digging_phase := false
  edible_by_boisei := true
  edible_by_ergaster := true
  is_nesting_tree := false
  seasons_fruiting := [true, true, true, true]
  grams_per_feeding_unit := 100
  calories_per_gram := 2
  visibility_probability := 1/2
  handling_time_minutes := 1
  return_rate := 200

/-- A cell holding 50 units of the example plant with capacity 100. -/
def exampleCell : CellFood where
  food_amounts := fun _ => 50
  max_food_amounts := fun _ => 100

/-- A fresh small carcass of 1000 grams at the origin with one agent
present. -/
def exampleCarcass : Carcass :=
  ⟨1, CarcassSize.small, 1000, 1000, (0, 0), [0]⟩

/-- History of an agent tracked for 14 days with 13 days above the
1250-calorie threshold and one day below it. -/
def historyThirteenAbove : List ℚ :=
  [1300, 1300, 1300, 1300, 1300, 1200, 1300, 1300, 1300, 1300, 1300, 1300, 1300, 1300]

/-- History of an agent tracked for 14 days, all below the threshold. -/
def historyAllBelow : List ℚ :=
  [1200, 1200, 1200, 1200, 1200, 1200, 1200, 1200, 1200, 1200, 1200, 1200, 1200, 1200]

/-- C9: the starvation check is true exactly when the recorded history
has at least `diet_track_length` entries and every one of the most
recent `diet_track_length` entries is strictly below
`daily_calorie_requirement * diet_threshold`; it is false whenever the
history is shorter than the window.  Moreover, with the 14-day boisei
window, 14 recorded days of which 13 are above threshold and 1 below is
not starving, while 14 consecutive below-threshold days is starving. -/
theorem check_starvation_spec (a : AgentState) :
    (check_starvation a = true ↔
      (a.diet_track_length ≤ a.calories_history.length ∧
        ∀ day_cal ∈ a.calories_history.drop
            (a.calories_history.length - a.diet_track_length),
          day_cal < a.daily_calorie_requirement * a.diet_threshold)) ∧
    (a.calories_history.length < a.diet_track_length → check_starvation a = false) ∧
    check_starvation { baseAgent with calories_history := historyThirteenAbove } = false ∧
    check_starvation { baseAgent with calories_history := historyAllBelow } = true := by
  refine ⟨?_, ?_, ?_, ?_⟩
  · unfold check_starvation
    by_cases hshort : a.calories_history.length < a.diet_track_length
    · rw [if_pos hshort]
      simp only [Bool.false_eq_true, false_iff, not_and]
      intro hlong
      exact absurd hlong (not_le.mpr hshort)
    · rw [if_neg hshort]
      push_neg at hshort
      have hreclen : (a.calories_history.drop
          (a.calories_history.length - a.diet_track_length)).length =
          a.diet_track_length := by
        rw [List.length_drop]
        omega
      constructor
      · intro hcount
        refine ⟨hshort, ?_⟩
        have hcount2 : a.diet_track_length ≤
            ((a.calories_history.drop
              (a.calories_history.length - a.diet_track_length)).filter
                (fun day_cal => day_cal < a.daily_calorie_requirement * a.diet_threshold)).length := by
          simpa using hcount
        have hle : ((a.calories_history.drop
            (a.calories_history.length - a.diet_track_length)).filter
              (fun day_cal => day_cal < a.daily_calorie_requirement * a.diet_threshold)).length ≤
            (a.calories_history.drop
              (a.calories_history.length - a.diet_track_length)).length :=
          List.length_filter_le _ _
        have heq : ((a.calories_history.drop
            (a.calories_history.length - a.diet_track_length)).filter
              (fun day_cal => day_cal < a.daily_calorie_requirement * a.diet_threshold)).length =
            (a.calories_history.drop
              (a.calories_history.length - a.diet_track_length)).length := by
          omega
        have hall := List.filter_length_eq_length.mp heq
        intro day_cal hmem
        simpa using hall day_cal hmem
      · intro hyp
        have hall : ∀ day_cal ∈ a.calories_history.drop
            (a.calories_history.length - a.diet_track_length),
            decide (day_cal < a.daily_calorie_requirement * a.diet_threshold) = true := by
          intro day_cal hmem
          simpa using hyp.2 day_cal hmem
        have heq := List.filter_length_eq_length.mpr hall
        simp only [decide_eq_true_eq]
        rw [heq, hreclen]
  · intro hshort
    unfold check_starvation
    rw [if_pos hshort]
  · norm_num [check_starvation, baseAgent, historyThirteenAbove]
  · norm_num [check_starvation, baseAgent, historyAllBelow]

/-- Witness for the C9 theorem: an agent with a 2-entry history and a
14-day window is not starving. -/
theorem check_starvation_spec_witness :
    check_starvation { baseAgent with calories_history := [0, 0] } = false :=
  (check_starvation_spec { baseAgent with calories_history := [0, 0] }).2.1 (by decide)

/-- Witness for the C7 theorem: a boisei agent with 4000 grams in a
4500-gram gut stays within capacity after eating or scavenging and has
an empty gut after the end-of-day reset. -/
theorem gut_capacity_invariant_witness :
    (eat_food { baseAgent with gut_contents_grams := 4000 } examplePlant exampleCell
        1 1).1.gut_contents_grams ≤
      ({ baseAgent with gut_contents_grams := 4000 } : AgentState).belly_capacity_grams ∧
      (agent_consume_meat defaultParameters { baseAgent with gut_contents_grams := 4000 }
          exampleCarcass 1 1).1.gut_contents_grams ≤
        ({ baseAgent with gut_contents_grams := 4000 } : AgentState).belly_capacity_grams ∧
      (end_of_day_agent defaultParameters
          { baseAgent with gut_contents_grams := 4000 }).gut_contents_grams = 0 :=
  gut_capacity_invariant defaultParameters { baseAgent with gut_contents_grams := 4000 }
    examplePlant exampleCell exampleCarcass 1 1 (by norm_num [baseAgent])

/-- Witness for the C10 theorem: with the gut exactly at capacity, both
operations return the agent, cell and carcass unchanged. -/
theorem full_gut_noop_witness :
    eat_food { baseAgent with gut_contents_grams := 4500 } examplePlant exampleCell 1 1 =
        ({ baseAgent with gut_contents_grams := 4500 }, exampleCell) ∧
      agent_consume_meat defaultParameters { baseAgent with gut_contents_grams := 4500 }
          exampleCarcass 1 1 =
        ({ baseAgent with gut_contents_grams := 4500 }, exampleCarcass) :=
  full_gut_noop defaultParameters { baseAgent with gut_contents_grams := 4500 }
    examplePlant exampleCell exampleCarcass 1 1 (by norm_num [baseAgent])

/-- `HominidAgent.ignore_carcass`: add a carcass to the day's ignore
list if not already there. -/
def ignore_carcass (a : AgentState) (carcass_id : ℕ) : AgentState :=
  if carcass_id ∈ a.ignored_carcasses then a
  else { a with ignored_carcasses := a.ignored_carcasses ++ [carcass_id] }

/-- `HominidAgent.wait_at_carcass`: with enough same-species agents
present, stop waiting and report ready to eat; otherwise on an expired
timer give up and ignore the carcass; otherwise decrement the timer.
Returns the updated agent and the can-eat flag. -/
def wait_at_carcass (a : AgentState) (carcass_id : ℕ)
    (n_agents_present required : ℕ) : AgentState × Bool :=
  if required ≤ n_agents_present then
    ({ a with wait_timer := 0, waiting_at_carcass := none }, true)
  else if a.wait_timer ≤ 0 then
    (ignore_carcass { a with waiting_at_carcass := none } carcass_id, false)
  else
    ({ a with wait_timer := a.wait_timer - 1 }, false)

/-- `HominidAgent.notify_others_of_carcass`: a cooperator adds the
carcass to the shared found list if it is not already there. -/
def notify_others_of_carcass (a : AgentState) (found : List ℕ)
    (carcass_id : ℕ) : List ℕ :=
  if a.cooperates = false then found
  else if carcass_id ∈ found then found
  else found ++ [carcass_id]

/-- `HominidAgent.scavenge_carcass`: the cooperative-scavenging branch
structure.  `n_agents_here` is the number of same-species agents at the
carcass location (counted from the live agent positions in the source);
`found` is the model's shared found-carcasses list.  Small carcasses and
carcasses already at the cooperation threshold are consumed at once; a
cooperator with a zeroed timer starts a fresh 10-minute wait; a
cooperator already waiting at this carcass runs `wait_at_carcass`; any
other agent ignores the carcass. -/
def scavenge_carcass (p : Parameters) (a : AgentState) (c : Carcass)
    (n_agents_here : ℕ) (found : List ℕ) (season day : ℕ) :
    AgentState × Carcass × List ℕ :=
  let found2 :=
    if n_agents_here = 1 ∧ a.cooperates = true then
      notify_others_of_carcass a found c.unique_id
    else found
  let required := p.number_of_agents_for_carcass
  if c.size = CarcassSize.small then
    let r := agent_consume_meat p a c season day
    (r.1, r.2, found2)
  else if required ≤ n_agents_here then
    let r := agent_consume_meat p a c season day
    (r.1, r.2, found2)
  else if a.cooperates = true ∧ a.wait_timer = 0 then
    ({ a with wait_timer := 10, waiting_at_carcass := some c.unique_id }, c, found2)
  else if a.cooperates = true ∧ a.waiting_at_carcass = some c.unique_id then
    let w := wait_at_carcass a c.unique_id n_agents_here required
    if w.2 = true then
      let r := agent_consume_meat p w.1 c season day
      (r.1, r.2, found2)
    else (w.1, c, found2)
  else
    (ignore_carcass a c.unique_id, c, found2)

/-- `can_scavenge_carcass` (carcass_system.py): meat eaters only; never a
depleted carcass; small carcasses always; medium/large only for a
cooperator when the carcass's present-agent count already meets the
threshold. -/
def can_scavenge_carcass (c : Carcass) (a : AgentState) (p : Parameters) : Bool :=
  if a.can_eat_meat = false then false
  else if c.is_depleted then false
  else if c.can_scavenge_individually then true
  else if a.cooperates then
    c.needs_cooperation c.agents_present.length p.number_of_agents_for_carcass
  else false

/-- Results of the stochastic scans one minute consumes, supplied to the
per-minute step where the source draws them: the nest site found by
`find_nest_site`, the plant choice from `scan_for_food` plus
`choose_best_food` (species and cell), the carcass choice from
`scan_for_carcasses`/`check_for_carcass_calls` plus
`choose_best_carcass` together with the same-species count at its
location, the cell food at the chosen plant cell, the model's shared
found-carcasses list, and the cell `move_toward_food` would move to. -/
structure StepInputs where
  nest_site : Option (ℤ × ℤ)
  best_plant : Option (PlantSpecies × (ℤ × ℤ))
  best_carcass : Option (Carcass × ℕ)
  cell : CellFood
  found : List ℕ
  fallback_target : ℤ × ℤ

/-- World-visible result of one agent minute. -/
structure StepResult where
  agent : AgentState
  cell : CellFood
  carcass : Option Carcass
  found : List ℕ

/-- The plant-vs-meat comparison of `HominidAgent.step` (hominids_model.py
lines 294-300): commit to meat exactly when the constant meat return
rate, calories-per-gram times grams-eaten-per-minute, strictly exceeds
the plant's return rate. -/
def meat_beats_plant (p : Parameters) (plant_return : ℚ) : Bool :=
  p.carcass_calories_per_gram * p.carcass_grams_eaten_per_unit_time > plant_return

/-- The foraging body of `HominidAgent.step`: dispatch on the available
best plant and best carcass options, eating, scavenging, or falling back
to movement. -/
def forage (p : Parameters) (a : AgentState) (inp : StepInputs)
    (season day : ℕ) : StepResult :=
  match inp.best_plant, inp.best_carcass with
  | some plant_choice, some carcass_choice =>
    if meat_beats_plant p plant_choice.1.return_rate then
      let r := scavenge_carcass p a carcass_choice.1 carcass_choice.2 inp.found season day
      ⟨r.1, inp.cell, some r.2.1, r.2.2⟩
    else
      let a1 := if plant_choice.2 ≠ a.pos then { a with pos := plant_choice.2 } else a
      let r := eat_food a1 plant_choice.1 inp.cell season day
      ⟨r.1, r.2, some carcass_choice.1, inp.found⟩
  | some plant_choice, none =>
    let a1 := if plant_choice.2 ≠ a.pos then { a with pos := plant_choice.2 } else a
    let r := eat_food a1 plant_choice.1 inp.cell season day
    ⟨r.1, r.2, none, inp.found⟩
  | none, some carcass_choice =>
    let r := scavenge_carcass p a carcass_choice.1 carcass_choice.2 inp.found season day
    ⟨r.1, inp.cell, some r.2.1, r.2.2⟩
  | none, none =>
    ⟨{ a with pos := inp.fallback_target }, inp.cell, none, inp.found⟩

/-- `HominidAgent.step`: resting agents do nothing; in the pre-nesting
window a non-nesting agent that finds a nest site moves there, marks
itself nesting and stops for the minute (returning before the
decrement); otherwise the agent forages and then decrements its
active-minute counter by one. -/
def agent_step (p : Parameters) (a : AgentState) (inp : StepInputs)
    (season day : ℕ) : StepResult :=
  if a.active_time_remaining ≤ 0 then
    ⟨a, inp.cell, Option.map Prod.fst inp.best_carcass, inp.found⟩
  else if a.active_time_remaining ≤ p.extra_nesting_steps ∧ a.is_nesting = false then
    match inp.nest_site with
    | some site =>
      ⟨{ a with pos := site, is_nesting := true, nest_location := some site },
        inp.cell, Option.map Prod.fst inp.best_carcass, inp.found⟩
    | none =>
      let r := forage p a inp season day
      ⟨{ r.agent with active_time_remaining := r.agent.active_time_remaining - 1 },
        r.cell, r.carcass, r.found⟩
  else
    let r := forage p a inp season day
    ⟨{ r.agent with active_time_remaining := r.agent.active_time_remaining - 1 },
      r.cell, r.carcass, r.found⟩

/-- A plant whose return rate exactly equals the constant meat return
rate of `defaultParameters`: 50-gram units at 1570 calories per gram
handled in one minute give 78500 calories per minute. -/
def tiePlant : PlantSpecies where
  species_id := 2
  disabled := false
  tools_required := false
  has_digging_phase := false
  edible_by_boisei := true
  edible_by_ergaster := true
  is_nesting_tree := false
  seasons_fruiting := [true, true, true, true]
  grams_per_feeding_unit := 50
  calories_per_gram := 1570
  visibility_probability := 1/2
  handling_time_minutes := 1
  return_rate := 78500

/-- Minute inputs where both a best plant (the tie-rate plant, in the
agent's own cell) and a best carcass (a fresh small carcass) are
available. -/
def tieInputs : StepInputs where
  nest_site := none
  best_plant := some (tiePlant, (0, 0))
  best_carcass := some (exampleCarcass, 1)
  cell := exampleCell
  found := []
  fallback_target := (0, 0)

/-- Counterexample to C1 as stated: with the plant's return rate exactly
equal to the constant meat return rate, the agent eats the plant (its
daily plant ledger gains the feeding unit's calories, its carcass ledger
stays empty, and the carcass is returned untouched), so a tie does not
favor meat. -/
theorem forage_tie_counterexample :
    defaultParameters.carcass_calories_per_gram *
        defaultParameters.carcass_grams_eaten_per_unit_time = tiePlant.return_rate ∧
      (forage defaultParameters baseAgent tieInputs 1 1).agent.daily_carcass_calories 0 = 0 ∧
      (forage defaultParameters baseAgent tieInputs 1 1).agent.daily_plant_calories 0 = 78500 ∧
      (forage defaultParameters baseAgent tieInputs 1 1).carcass = some exampleCarcass := by
  refine ⟨by norm_num [defaultParameters, tiePlant], ?_⟩
  have hmeat : meat_beats_plant defaultParameters tiePlant.return_rate = false := by
    unfold meat_beats_plant
    exact decide_eq_false (by norm_num [defaultParameters, tiePlant])
  simp only [forage, tieInputs, hmeat, Bool.false_eq_true, if_false]
  norm_num [eat_food, ledger_add, baseAgent, tiePlant, exampleCell]

/-- C1 amended: with both a best plant and a best carcass available, the
agent commits to meat exactly when the constant meat return rate
(calories-per-gram times grams-eaten-per-minute) strictly exceeds the
plant's return rate, and commits to the plant whenever the plant's rate
is greater than or equal to the meat rate — ties favor the plant. -/
theorem forage_commitment (p : Parameters) (a : AgentState) (inp : StepInputs)
    (season day : ℕ) (plant_choice : PlantSpecies × (ℤ × ℤ))
    (carcass_choice : Carcass × ℕ)
    (hp : inp.best_plant = some plant_choice)
    (hc : inp.best_carcass = some carcass_choice) :
    (p.carcass_calories_per_gram * p.carcass_grams_eaten_per_unit_time >
        plant_choice.1.return_rate →
      forage p a inp season day =
        ⟨(scavenge_carcass p a carcass_choice.1 carcass_choice.2 inp.found season day).1,
          inp.cell,
          some (scavenge_carcass p a carcass_choice.1 carcass_choice.2 inp.found season day).2.1,
          (scavenge_carcass p a carcass_choice.1 carcass_choice.2 inp.found season day).2.2⟩) ∧
    (plant_choice.1.return_rate ≥
        p.carcass_calories_per_gram * p.carcass_grams_eaten_per_unit_time →
      forage p a inp season day =
        ⟨(eat_food (if plant_choice.2 ≠ a.pos then { a with pos := plant_choice.2 } else a)
            plant_choice.1 inp.cell season day).1,
          (eat_food (if plant_choice.2 ≠ a.pos then { a with pos := plant_choice.2 } else a)
            plant_choice.1 inp.cell season day).2,
          some carcass_choice.1, inp.found⟩) := by
  constructor
  · intro hgt
    have hmeat : meat_beats_plant p plant_choice.1.return_rate = true := by
      unfold meat_beats_plant
      exact decide_eq_true hgt
    simp only [forage, hp, hc, hmeat, if_true]
  · intro hge
    have hmeat : meat_beats_plant p plant_choice.1.return_rate = false := by
      unfold meat_beats_plant
      exact decide_eq_false (not_lt.mpr hge)
    simp only [forage, hp, hc, hmeat, Bool.false_eq_true, if_false]

/-- Witness for the amended C1 theorem at the tie inputs: the plant's
rate equals the meat rate, so the agent takes the plant branch. -/
theorem forage_commitment_witness :
    forage defaultParameters baseAgent tieInputs 1 1 =
      ⟨(eat_food (if ((0:ℤ), (0:ℤ)) ≠ baseAgent.pos
            then { baseAgent with pos := ((0:ℤ), (0:ℤ)) } else baseAgent)
          tiePlant tieInputs.cell 1 1).1,
        (eat_food (if ((0:ℤ), (0:ℤ)) ≠ baseAgent.pos
            then { baseAgent with pos := ((0:ℤ), (0:ℤ)) } else baseAgent)
          tiePlant tieInputs.cell 1 1).2,
        some exampleCarcass, tieInputs.found⟩ :=
  (forage_commitment defaultParameters baseAgent tieInputs 1 1 (tiePlant, (0, 0))
    (exampleCarcass, 1) rfl rfl).2 (by norm_num [defaultParameters, tiePlant])

/-- Eating a plant never touches the active-minute counter. -/
theorem eat_food_active_time (a : AgentState) (plant : PlantSpecies)
    (cf : CellFood) (season day : ℕ) :
    (eat_food a plant cf season day).1.active_time_remaining = a.active_time_remaining := by
  simp only [eat_food]
  split <;> rfl

/-- Consuming meat never touches the active-minute counter. -/
theorem agent_consume_meat_active_time (p : Parameters) (a : AgentState)
    (c : Carcass) (season day : ℕ) :
    (agent_consume_meat p a c season day).1.active_time_remaining =
      a.active_time_remaining := by
  simp only [agent_consume_meat]
  split <;> rfl

/-- Ignoring a carcass never touches the active-minute counter. -/
theorem ignore_carcass_active_time (a : AgentState) (carcass_id : ℕ) :
    (ignore_carcass a carcass_id).active_time_remaining = a.active_time_remaining := by
  unfold ignore_carcass
  split <;> rfl

/-- Waiting at a carcass never touches the active-minute counter. -/
theorem wait_at_carcass_active_time (a : AgentState) (carcass_id : ℕ)
    (n_agents_present required : ℕ) :
    (wait_at_carcass a carcass_id n_agents_present required).1.active_time_remaining =
      a.active_time_remaining := by
  unfold wait_at_carcass
  split
  · rfl
  · split
    · exact ignore_carcass_active_time _ _
    · rfl

/-- Scavenging never touches the active-minute counter. -/
theorem scavenge_carcass_active_time (p : Parameters) (a : AgentState)
    (c : Carcass) (n_agents_here : ℕ) (found : List ℕ) (season day : ℕ) :
    (scavenge_carcass p a c n_agents_here found season day).1.active_time_remaining =
      a.active_time_remaining := by
  simp only [scavenge_carcass]
  split
  · exact agent_consume_meat_active_time _ _ _ _ _
  · split
    · exact agent_consume_meat_active_time _ _ _ _ _
    · split
      · rfl
      · split
        · split
          · rw [agent_consume_meat_active_time]
            exact wait_at_carcass_active_time _ _ _ _
          · exact wait_at_carcass_active_time _ _ _ _
        · exact ignore_carcass_active_time _ _

/-- The foraging body never touches the active-minute counter. -/
theorem forage_active_time (p : Parameters) (a : AgentState)
    (inp : StepInputs) (season day : ℕ) :
    (forage p a inp season day).agent.active_time_remaining =
      a.active_time_remaining := by
  rcases hp : inp.best_plant with _ | plant_choice <;>
    rcases hc : inp.best_carcass with _ | carcass_choice <;>
    simp only [forage, hp, hc] <;>
    (try split) <;>
    first
      | rfl
      | exact scavenge_carcass_active_time _ _ _ _ _ _ _
      | (rw [eat_food_active_time] <;>
          first
            | rfl
            | (split <;> rfl))

/-- An agent committing to a nest site this minute (the pre-nesting
window, not yet nesting, with a site found). -/
def nestAgent : AgentState :=
  { baseAgent with active_time_remaining := 180 }

/-- Minute inputs where the nest search found a site and no food is
visible. -/
def nestInputs : StepInputs where
  nest_site := some (2, 3)
  best_plant := none
  best_carcass := none
  cell := exampleCell
  found := []
  fallback_target := (0, 0)

/-- Counterexample to C3 as stated: an active agent (180 minutes left,
equal to the extra nesting window) that commits to a nest site returns
from the minute without decrementing its active-minute counter, so the
counter is not decremented in every outcome. -/
theorem agent_step_nest_no_decrement :
    0 < nestAgent.active_time_remaining ∧
      (agent_step defaultParameters nestAgent nestInputs 1 1).agent.active_time_remaining ≠
        nestAgent.active_time_remaining - 1 := by
  constructor
  · norm_num [nestAgent, baseAgent]
  · norm_num [agent_step, nestAgent, nestInputs, baseAgent, defaultParameters]

/-- C3 amended: an agent with remaining active minutes decrements its
counter by exactly 1 in every outcome of the minute (eating, scavenging,
moving, or fallback) except the one in which it newly commits to a nest
site, where the minute ends with the counter unchanged. -/
theorem agent_step_active_time (p : Parameters) (a : AgentState)
    (inp : StepInputs) (season day : ℕ)
    (h : 0 < a.active_time_remaining) :
    ((a.active_time_remaining ≤ p.extra_nesting_steps ∧ a.is_nesting = false ∧
        inp.nest_site ≠ none) →
      (agent_step p a inp season day).agent.active_time_remaining =
        a.active_time_remaining) ∧
    (¬(a.active_time_remaining ≤ p.extra_nesting_steps ∧ a.is_nesting = false ∧
        inp.nest_site ≠ none) →
      (agent_step p a inp season day).agent.active_time_remaining =
        a.active_time_remaining - 1) := by
  have hact : ¬a.active_time_remaining ≤ 0 := not_le.mpr h
  constructor
  · rintro ⟨hwin, hnest, hsite⟩
    rcases hs : inp.nest_site with _ | site
    · exact absurd hs hsite
    · unfold agent_step
      rw [if_neg hact, if_pos ⟨hwin, hnest⟩, hs]
  · intro hnot
    unfold agent_step
    rw [if_neg hact]
    by_cases hcond : a.active_time_remaining ≤ p.extra_nesting_steps ∧ a.is_nesting = false
    · rw [if_pos hcond]
      rcases hs : inp.nest_site with _ | site
      · simp only
        rw [forage_active_time]
      · exact absurd ⟨hcond.1, hcond.2, by rw [hs]; exact Option.some_ne_none site⟩ hnot
    · rw [if_neg hcond]
      simp only
      rw [forage_active_time]

/-- Witness for the amended C3 theorem: the nest-commit case leaves the
counter at 180, and the same agent one minute earlier in the day (181
minutes left, outside the nesting window) has it decremented to 180. -/
theorem agent_step_active_time_witness :
    (agent_step defaultParameters nestAgent nestInputs 1 1).agent.active_time_remaining =
        nestAgent.active_time_remaining ∧
      (agent_step defaultParameters { nestAgent with active_time_remaining := 181 }
          nestInputs 1 1).agent.active_time_remaining =
        ({ nestAgent with active_time_remaining := 181 } : AgentState).active_time_remaining - 1 :=
  ⟨(agent_step_active_time defaultParameters nestAgent nestInputs 1 1
      (by norm_num [nestAgent, baseAgent])).1
      (by refine ⟨by norm_num [nestAgent, baseAgent, defaultParameters], rfl, ?_⟩
          simp [nestInputs]),
    (agent_step_active_time defaultParameters { nestAgent with active_time_remaining := 181 }
      nestInputs 1 1 (by norm_num)).2
      (by
        rintro ⟨hwin, -, -⟩
        norm_num [defaultParameters] at hwin)⟩

/-- A medium carcass (10000 grams) whose co-located count is stuck at
two same-species cooperators, below the required three. -/
def mediumCarcassScenario : Carcass :=
  ⟨0, CarcassSize.medium, 10000, 10000, (0, 0), [1, 2]⟩

/-- One of the two cooperating agents standing at the medium carcass. -/
def waitingCooperator : AgentState :=
  { baseAgent with unique_id := 1 }

/-- One minute of the C6 scenario: the cooperator chooses the medium
carcass again while the same-species count at the carcass stays at two
(the third cooperator never arrives). -/
def scenario_minute (s : AgentState × Carcass) : AgentState × Carcass :=
  let r := scavenge_carcass defaultParameters s.1 s.2 2 [] 1 1
  (r.1, r.2.1)

/-- The C6 scenario trace: `k` minutes of waiting at the under-threshold
medium carcass. -/
def scenario_trace (k : ℕ) : AgentState × Carcass :=
  scenario_minute^[k] (waitingCooperator, mediumCarcassScenario)

/-- Invariant of the C6 scenario: the cooperator never ignores anything,
never gains calories, and cycles its wait timer between 0 and 10. -/
def ScenarioInv (s : AgentState × Carcass) : Prop :=
  s.1.ignored_carcasses = [] ∧ s.1.calories_today = 0 ∧
    s.1.cooperates = true ∧ s.2 = mediumCarcassScenario ∧
    0 ≤ s.1.wait_timer ∧ s.1.wait_timer ≤ 10 ∧
    (s.1.wait_timer ≠ 0 → s.1.waiting_at_carcass = some 0)

/-- The scenario invariant is preserved by every minute: when the timer
reads zero the `wait_timer == 0` branch of `scavenge_carcass` restarts a
fresh 10-minute wait (so the expiry branch of `wait_at_carcass` is never
reached), and otherwise the timer merely decrements. -/
theorem scenario_inv_step (s : AgentState × Carcass) (h : ScenarioInv s) :
    ScenarioInv (scenario_minute s) := by
  obtain ⟨hig, hcal, hcoop, hcarc, htlo, hthi, hwait⟩ := h
  have hsize : s.2.size = CarcassSize.medium := by rw [hcarc]; rfl
  have hid : s.2.unique_id = 0 := by rw [hcarc]; rfl
  unfold scenario_minute
  simp only [scavenge_carcass, hsize]
  rw [if_neg (by simp), if_neg (by norm_num [defaultParameters])]
  by_cases ht : s.1.wait_timer = 0
  · rw [if_pos ⟨hcoop, ht⟩]
    exact ⟨hig, hcal, hcoop, hcarc, by norm_num, by norm_num, by simp [hid]⟩
  · rw [if_neg (by simp [ht])]
    rw [if_pos ⟨hcoop, by rw [hwait ht, hid]⟩]
    have hpos : 0 < s.1.wait_timer := lt_of_le_of_ne htlo (Ne.symm ht)
    have hw : wait_at_carcass s.1 s.2.unique_id 2
        defaultParameters.number_of_agents_for_carcass =
        ({ s.1 with wait_timer := s.1.wait_timer - 1 }, false) := by
      unfold wait_at_carcass
      rw [if_neg (by norm_num [defaultParameters]), if_neg (not_le.mpr hpos)]
    have hnc : ¬((wait_at_carcass s.1 s.2.unique_id 2
        defaultParameters.number_of_agents_for_carcass).2 = true) := by
      rw [hw]
      simp
    rw [if_neg hnc, hw]
    refine ⟨hig, hcal, hcoop, hcarc, ?_, ?_, fun _ => ?_⟩
    · show 0 ≤ s.1.wait_timer - 1
      omega
    · show s.1.wait_timer - 1 ≤ 10
      omega
    · show s.1.waiting_at_carcass = some 0
      exact hwait ht

/-- C6 (behaviour the code actually has, contradicting the claim): a
cooperating agent waiting at a medium carcass whose same-species count
stays at two (required: three) never transitions to ignoring the carcass
and never consumes from it, for any number of minutes — when its timer
reaches zero the wait restarts instead of expiring into `ignoring`; in
particular after 12 minutes it is waiting again with a full 10-minute
timer. -/
theorem waiting_cooperator_never_ignores :
    (∀ k : ℕ, (scenario_trace k).1.ignored_carcasses = [] ∧
      (scenario_trace k).1.calories_today = 0) ∧
    (scenario_trace 12).1.wait_timer = 10 ∧
    (scenario_trace 12).1.waiting_at_carcass = some 0 := by
  have hinv : ∀ k : ℕ, ScenarioInv (scenario_trace k) := by
    intro k
    induction k with
    | zero =>
      refine ⟨rfl, rfl, rfl, rfl, by norm_num [scenario_trace, waitingCooperator, baseAgent],
        by norm_num [scenario_trace, waitingCooperator, baseAgent], ?_⟩
      intro hne
      exact absurd rfl hne
    | succ n ih =>
      have : scenario_trace (n + 1) = scenario_minute (scenario_trace n) := by
        unfold scenario_trace
        rw [Function.iterate_succ_apply']
      rw [this]
      exact scenario_inv_step _ ih
  refine ⟨fun k => ⟨(hinv k).1, (hinv k).2.1⟩, ?_, ?_⟩ <;> decide

/-- The random sources the model construction touches or reads, as
streams of unit-interval draws: the stdlib-global `random` module and
the global numpy generator (the two that `HOMINIDSModel.__init__` seeds),
and the Mesa model RNG `self.random`, created independently inside
`super().__init__()` and never reseeded from `random_seed`. -/
structure ModelRandomSources where
  python_random : ℕ → ℚ
  numpy_random : ℕ → ℚ
  mesa_random : ℕ → ℚ

/-- The seeding step of `HOMINIDSModel.__init__` (lines 1016-1019):
`if random_seed: random.seed(random_seed); np.random.seed(random_seed)`.
Only the stdlib-global and numpy streams are replaced by the
seed-determined stream, and a falsy seed (absent or zero) is skipped;
the Mesa stream is left untouched. -/
def apply_random_seed (stream_of_seed : ℕ → ℕ → ℚ) (random_seed : Option ℕ)
    (r : ModelRandomSources) : ModelRandomSources :=
  match random_seed with
  | none => r
  | some s =>
    if s = 0 then r
    else { r with python_random := stream_of_seed s, numpy_random := stream_of_seed s }

/-- The per-minute plant detection draw of `HominidAgent.scan_for_food`
(line 377): `self.model.random.random() < species.visibility_probability`
— it reads the Mesa stream. -/
def scan_detects (r : ModelRandomSources) (draw_index : ℕ)
    (plant : PlantSpecies) : Bool :=
  r.mesa_random draw_index < plant.visibility_probability

/-- Calories the first minute yields for an agent alone with one plant
in its cell: if the scan's detection draw succeeds the agent eats one
feeding unit at the plant's calories-per-gram, otherwise nothing. -/
def first_minute_plant_calories (r : ModelRandomSources)
    (plant : PlantSpecies) : ℚ :=
  if scan_detects r 0 plant then plant.grams_per_feeding_unit * plant.calories_per_gram
  else 0

/-- C2 fails on the code: two model constructions with identical
configuration and the same `random_seed` (42) end up with identical
seeded stdlib and numpy streams, yet their first foraging outcomes
differ, because the detection draw reads the Mesa model RNG, which
`apply_random_seed` never touches and which `super().__init__()` seeds
independently of `random_seed`.  The two Mesa streams below stand for
two runs' independently seeded Mesa generators. -/
theorem seeded_runs_can_diverge :
    (apply_random_seed (fun _ _ => 1/3) (some 42)
          ⟨fun _ => 1/4, fun _ => 1/4, fun _ => 0⟩).python_random =
        (apply_random_seed (fun _ _ => 1/3) (some 42)
          ⟨fun _ => 1/4, fun _ => 1/4, fun _ => 1⟩).python_random ∧
      (apply_random_seed (fun _ _ => 1/3) (some 42)
          ⟨fun _ => 1/4, fun _ => 1/4, fun _ => 0⟩).numpy_random =
        (apply_random_seed (fun _ _ => 1/3) (some 42)
          ⟨fun _ => 1/4, fun _ => 1/4, fun _ => 1⟩).numpy_random ∧
      first_minute_plant_calories
          (apply_random_seed (fun _ _ => 1/3) (some 42)
            ⟨fun _ => 1/4, fun _ => 1/4, fun _ => 0⟩) examplePlant ≠
        first_minute_plant_calories
          (apply_random_seed (fun _ _ => 1/3) (some 42)
            ⟨fun _ => 1/4, fun _ => 1/4, fun _ => 1⟩) examplePlant := by
  refine ⟨rfl, rfl, ?_⟩
  norm_num [first_minute_plant_calories, scan_detects, apply_random_seed, examplePlant]

end Hominids
